import Mathlib

/-!
Verification of the authentication / lockout / password-reset subsystem of the
Login-System repository (`src/utils/auth.py`, `src/utils/login_helpers.py`,
`src/utils/reset_helpers.py`, `src/utils/database.py`, `src/screens/login.py`,
`src/screens/reset_password.py`), as a shallow embedding in Lean 4.

Modelling conventions:
* Python strings are `List Char`; `str.strip`, `str.upper`, `str.lower` and
  single-character-separator `str.split` are reimplemented below, faithful to
  Python's semantics for ASCII text.
* Timestamps (`time.time()`, `datetime.utcnow()`) are integers (`ℤ`) measured
  in seconds; each read of the clock is an explicit parameter.  Python's
  `int(x)` truncation toward zero on the quotient `(expiry - now) / 60`
  is `Int.tdiv _ 60`.
* The SHA-256 digest (`hashlib.sha256(...).hexdigest()`) is an abstract
  parameter `H : List Char → List Char`; the facts proved below hold for every
  digest function whose output is lowercase-hex, which `hexdigest` guarantees.
* Mutable state (the lockout manager's dicts, the MySQL tables) is passed
  explicitly; a Python method that both returns a value and mutates state
  becomes a Lean function returning a pair.
* `mysql.connector` writes can raise; each write method of `Database` gets a
  boolean environment flag saying whether the underlying statement succeeds,
  mirroring the `try/except` blocks of `src/utils/database.py`.
-/

namespace LoginSystem

/-! ## Python string primitives -/

/-- The characters of a Lean string literal, used to write Python strings. -/
def pstr (s : String) : List Char := s.data

/-- The whitespace characters removed by Python's `str.strip()` (ASCII part). -/
def pyIsSpace (c : Char) : Bool :=
  c = ' ' || c = '\t' || c = '\n' || c = '\r' || c = '\x0b' || c = '\x0c'

/-- Python `s.strip()`: drop leading and trailing whitespace. -/
def pyStrip (s : List Char) : List Char :=
  ((s.dropWhile pyIsSpace).reverse.dropWhile pyIsSpace).reverse

/-- Python `s.upper()` (ASCII). -/
def pyUpper (s : List Char) : List Char := s.map Char.toUpper

/-- Python `s.lower()` (ASCII). -/
def pyLower (s : List Char) : List Char := s.map Char.toLower

/-- Python `s.split(sep)` for a single-character separator: on the empty
string it yields `[""]`, and every occurrence of `sep` starts a new field. -/
def pySplit (sep : Char) : List Char → List (List Char)
  | [] => [[]]
  | c :: cs =>
    if c = sep then
      [] :: pySplit sep cs
    else
      match pySplit sep cs with
      | [] => [[c]]
      | h :: t => (c :: h) :: t

theorem pySplit_ne_nil (sep : Char) (l : List Char) : pySplit sep l ≠ [] := by
  cases l with
  | nil => simp [pySplit]
  | cons c cs =>
    unfold pySplit
    by_cases h : c = sep
    · simp [h]
    · simp only [h, if_false]
      cases pySplit sep cs <;> simp

/-- The number of fields produced by `pySplit` is one more than the number of
separators, exactly as in Python. -/
theorem pySplit_length (sep : Char) (l : List Char) :
    (pySplit sep l).length = l.count sep + 1 := by
  induction l with
  | nil => simp [pySplit]
  | cons c cs ih =>
    unfold pySplit
    by_cases h : c = sep
    · subst h
      simp [List.count_cons, ih]
    · simp only [h, if_false]
      have hne := pySplit_ne_nil sep cs
      cases hsp : pySplit sep cs with
      | nil => exact absurd hsp hne
      | cons hd tl =>
        rw [hsp] at ih
        simp only [List.length_cons] at ih ⊢
        rw [List.count_cons]
        simp [h, Ne.symm h, ih]

/-- Splitting a separator-free string yields a single field. -/
theorem pySplit_of_not_mem (sep : Char) (l : List Char) (h : sep ∉ l) :
    pySplit sep l = [l] := by
  induction l with
  | nil => rfl
  | cons c cs ih =>
    have hc : ¬ c = sep := fun hcs => h (hcs ▸ List.mem_cons_self c cs)
    have hcs : sep ∉ cs := fun hmem => h (List.mem_cons_of_mem c hmem)
    unfold pySplit
    simp only [hc, if_false, ih hcs]

/-- Splitting at the first separator occurrence peels off the prefix. -/
theorem pySplit_append (sep : Char) (a b : List Char) (h : sep ∉ a) :
    pySplit sep (a ++ sep :: b) = a :: pySplit sep b := by
  induction a with
  | nil => simp [pySplit]
  | cons c cs ih =>
    have hc : ¬ c = sep := fun hcs => h (hcs ▸ List.mem_cons_self c cs)
    have hcs : sep ∉ cs := fun hmem => h (List.mem_cons_of_mem c hmem)
    simp only [List.cons_append]
    rw [pySplit]
    simp only [hc, if_false, ih hcs]

/-! ## `src/utils/auth.py` — Credential Hasher

`hash_password` draws `salt = secrets.token_hex(16)` (32 lowercase-hex
characters) and returns `f"{salt}${sha256(salt + password).hexdigest()}"`.
The digest is the abstract parameter `H`; its hex-ness is a hypothesis where
needed.  `verify_password` splits the stored string on `"$"`, returning
`False` on a malformed format (`ValueError` from tuple unpacking), and
recomputes the digest. -/

/-- Lowercase hexadecimal characters: the alphabet of `secrets.token_hex` and
of `hashlib.sha256(...).hexdigest()`. -/
def isLowerHex (c : Char) : Bool :=
  ('0' ≤ c && c ≤ '9') || ('a' ≤ c && c ≤ 'f')

/-- `hash_password` from `src/utils/auth.py`, with the random salt and the
SHA-256 digest function made explicit. -/
def hash_password (H : List Char → List Char) (salt password : List Char) :
    List Char :=
  salt ++ '$' :: H (salt ++ password)

/-- `verify_password` from `src/utils/auth.py`.  The Python
`salt, stored_hash = stored.split("$")` succeeds exactly when the split has
two fields; any other shape raises `ValueError`, caught to return `False`. -/
def verify_password (H : List Char → List Char) (stored password : List Char) :
    Bool :=
  match pySplit '$' stored with
  | [salt, stored_hash] => decide (H (salt ++ password) = stored_hash)
  | _ => false

theorem not_mem_dollar_of_hex (l : List Char) (h : ∀ c ∈ l, isLowerHex c = true) :
    '$' ∉ l := by
  intro hmem
  have := h '$' hmem
  simp [isLowerHex] at this

/-- C1: for every plaintext `p` and every salt the hashing step may draw
(lowercase hex, as `secrets.token_hex` produces) and every digest function
whose output is lowercase hex (as `sha256(...).hexdigest()` is),
`verify_password (hash_password p) p = true`. -/
theorem c1_verify_hash_roundtrip (H : List Char → List Char)
    (salt password : List Char)
    (hsalt : ∀ c ∈ salt, isLowerHex c = true)
    (hdig : ∀ c ∈ H (salt ++ password), isLowerHex c = true) :
    verify_password H (hash_password H salt password) password = true := by
  have hs : '$' ∉ salt := not_mem_dollar_of_hex salt hsalt
  have hd : '$' ∉ H (salt ++ password) := not_mem_dollar_of_hex _ hdig
  unfold verify_password hash_password
  rw [pySplit_append '$' salt (H (salt ++ password)) hs,
    pySplit_of_not_mem '$' (H (salt ++ password)) hd]
  simp

/-- Witness for C1 at a concrete salt, plaintext and digest function. -/
theorem c1_witness :
    (∀ c ∈ pstr "00", isLowerHex c = true) ∧
    (∀ c ∈ (fun (_ : List Char) => pstr "ab") (pstr "00" ++ pstr "pw"),
      isLowerHex c = true) ∧
    verify_password (fun _ => pstr "ab")
      (hash_password (fun _ => pstr "ab") (pstr "00") (pstr "pw"))
      (pstr "pw") = true :=
  ⟨by decide, by decide,
    c1_verify_hash_roundtrip (fun _ => pstr "ab") (pstr "00") (pstr "pw")
      (by decide) (by decide)⟩

/-- C8: `verify_password` fails closed on every malformed stored string: if
the stored string does not contain exactly one `'$'` delimiter (none, or more
than one), the result is `false` for every plaintext and every digest
function.  Totality — "never raises" — holds by construction: the embedded
function is a total Lean function, mirroring the `try/except ValueError`. -/
theorem c8_verify_malformed_false (H : List Char → List Char)
    (stored password : List Char) (h : stored.count '$' ≠ 1) :
    verify_password H stored password = false := by
  unfold verify_password
  have hlen : (pySplit '$' stored).length ≠ 2 := by
    rw [pySplit_length]
    omega
  cases hsp : pySplit '$' stored with
  | nil => rfl
  | cons a t =>
    cases t with
    | nil => rfl
    | cons b t2 =>
      cases t2 with
      | nil => rw [hsp] at hlen; simp at hlen
      | cons c t3 => rfl

/-- Witness for C8: a stored string with no delimiter and one with two
delimiters both verify as `false`. -/
theorem c8_witness :
    (pstr "deadbeef").count '$' ≠ 1 ∧
    (pstr "a$b$c").count '$' ≠ 1 ∧
    verify_password (fun _ => pstr "ab") (pstr "deadbeef") (pstr "pw") = false ∧
    verify_password (fun _ => pstr "ab") (pstr "a$b$c") (pstr "pw") = false :=
  ⟨by decide, by decide,
    c8_verify_malformed_false (fun _ => pstr "ab") (pstr "deadbeef") (pstr "pw")
      (by decide),
    c8_verify_malformed_false (fun _ => pstr "ab") (pstr "a$b$c") (pstr "pw")
      (by decide)⟩

/-! ## `src/utils/login_helpers.py` — Lockout Tracker

`LoginLockoutManager` holds two dicts, `failed_attempts : username -> int`
and `lockout_expiry : username -> timestamp`, modelled as partial maps.
Each method that reads `time.time()` takes the instant `now` explicitly;
`is_locked_out` both returns a `Bool` and may mutate (lazy self-heal), so it
returns a pair. -/

structure LoginLockoutManager where
  failed_attempts : List Char → Option Nat
  lockout_expiry : List Char → Option ℤ

def MAX_ATTEMPTS : Nat := 3

/-- 300 seconds (5 minutes). -/
def LOCKOUT_DURATION : ℤ := 300

/-- `LoginLockoutManager.__init__`: both dicts empty. -/
def emptyManager : LoginLockoutManager :=
  { failed_attempts := fun _ => none, lockout_expiry := fun _ => none }

/-- `increment_failed_attempts`: bump the per-user counter; once it reaches
`MAX_ATTEMPTS`, also set `lockout_expiry[username] = time.time() + 300`. -/
def increment_failed_attempts (m : LoginLockoutManager) (username : List Char)
    (now : ℤ) : LoginLockoutManager :=
  let attempts := (m.failed_attempts username).getD 0 + 1
  let m1 : LoginLockoutManager :=
    { m with failed_attempts := fun x =>
        if x = username then some attempts else m.failed_attempts x }
  if MAX_ATTEMPTS ≤ attempts then
    { m1 with lockout_expiry := fun x =>
        if x = username then some (now + LOCKOUT_DURATION)
        else m1.lockout_expiry x }
  else
    m1

/-- `clear_lockout`: `dict.pop(username, None)` on both dicts. -/
def clear_lockout (m : LoginLockoutManager) (username : List Char) :
    LoginLockoutManager :=
  { failed_attempts := fun x =>
      if x = username then none else m.failed_attempts x,
    lockout_expiry := fun x =>
      if x = username then none else m.lockout_expiry x }

/-- `is_locked_out`: no expiry entry means not locked out; an expiry in the
strict past self-heals via `clear_lockout` and reports `false`; otherwise
`true`.  Returns (result, updated manager). -/
def is_locked_out (m : LoginLockoutManager) (username : List Char) (now : ℤ) :
    Bool × LoginLockoutManager :=
  match m.lockout_expiry username with
  | none => (false, m)
  | some expiry =>
    if expiry < now then (false, clear_lockout m username)
    else (true, m)

/-- `get_remaining_lockout_minutes`: `0` on a falsy entry (absent, or the
timestamp `0`), else `max(0, int((expiry - time.time()) / 60))`; Python's
`int()` truncates toward zero, which is `Int.tdiv` here. -/
def get_remaining_lockout_minutes (m : LoginLockoutManager)
    (username : List Char) (now : ℤ) : ℤ :=
  match m.lockout_expiry username with
  | none => 0
  | some expiry =>
    if expiry = 0 then 0
    else max 0 ((expiry - now).tdiv 60)

theorem increment_failed_self (m : LoginLockoutManager) (username : List Char)
    (now : ℤ) :
    (increment_failed_attempts m username now).failed_attempts username =
      some ((m.failed_attempts username).getD 0 + 1) := by
  unfold increment_failed_attempts
  by_cases h : MAX_ATTEMPTS ≤ (m.failed_attempts username).getD 0 + 1 <;>
    simp [h]

theorem increment_expiry_self_of_max (m : LoginLockoutManager)
    (username : List Char) (now : ℤ)
    (h : MAX_ATTEMPTS ≤ (m.failed_attempts username).getD 0 + 1) :
    (increment_failed_attempts m username now).lockout_expiry username =
      some (now + LOCKOUT_DURATION) := by
  unfold increment_failed_attempts
  simp [h]

theorem increment_expiry_of_lt_max (m : LoginLockoutManager)
    (username : List Char) (now : ℤ)
    (h : ¬ MAX_ATTEMPTS ≤ (m.failed_attempts username).getD 0 + 1) :
    (increment_failed_attempts m username now).lockout_expiry username =
      m.lockout_expiry username := by
  unfold increment_failed_attempts
  simp [h]

/-- C2: from the Clear state (no counter, no expiry entry), three consecutive
`increment_failed_attempts` calls lock the identity out — `is_locked_out`
evaluated at any instant not past the expiry `t3 + 300` returns `true` — and
a single `clear_lockout` from any state whatsoever leaves the identity Clear:
counter entry gone (so the count reads as zero), and `is_locked_out` `false`
at every instant. -/
theorem c2_lockout_after_three_failures :
    (∀ (m : LoginLockoutManager) (x : List Char) (t1 t2 t3 t4 : ℤ),
      m.failed_attempts x = none →
      t4 ≤ t3 + LOCKOUT_DURATION →
      (is_locked_out
        (increment_failed_attempts
          (increment_failed_attempts
            (increment_failed_attempts m x t1) x t2) x t3) x t4).1 = true) ∧
    (∀ (m : LoginLockoutManager) (x : List Char) (t : ℤ),
      (clear_lockout m x).failed_attempts x = none ∧
      ((clear_lockout m x).failed_attempts x).getD 0 = 0 ∧
      (is_locked_out (clear_lockout m x) x t).1 = false) := by
  constructor
  · intro m x t1 t2 t3 t4 h0 hle
    have h1 := increment_failed_self m x t1
    rw [h0] at h1
    have h2 := increment_failed_self (increment_failed_attempts m x t1) x t2
    rw [h1] at h2
    have h3 := increment_failed_self
      (increment_failed_attempts (increment_failed_attempts m x t1) x t2) x t3
    rw [h2] at h3
    have hexp := increment_expiry_self_of_max
      (increment_failed_attempts (increment_failed_attempts m x t1) x t2) x t3
      (by rw [h2]; simp [MAX_ATTEMPTS])
    unfold is_locked_out
    rw [hexp]
    have : ¬ t3 + LOCKOUT_DURATION < t4 := by omega
    simp [this]
  · intro m x t
    refine ⟨by simp [clear_lockout], by simp [clear_lockout], ?_⟩
    unfold is_locked_out
    simp [clear_lockout]

/-- Witness for C2 at the empty manager and concrete instants. -/
theorem c2_witness :
    emptyManager.failed_attempts (pstr "user@example.com") = none ∧
    (0 : ℤ) ≤ 0 + LOCKOUT_DURATION ∧
    (is_locked_out
      (increment_failed_attempts
        (increment_failed_attempts
          (increment_failed_attempts emptyManager (pstr "user@example.com") 0)
          (pstr "user@example.com") 0)
        (pstr "user@example.com") 0) (pstr "user@example.com") 0).1 = true ∧
    (is_locked_out (clear_lockout emptyManager (pstr "user@example.com"))
      (pstr "user@example.com") 0).1 = false :=
  ⟨rfl, by decide,
    c2_lockout_after_three_failures.1 emptyManager (pstr "user@example.com")
      0 0 0 0 rfl (by decide),
    (c2_lockout_after_three_failures.2 emptyManager (pstr "user@example.com")
      0).2.2⟩

/-- C5: a locked-out identity whose expiry `t` lies strictly in the past
self-heals: `is_locked_out` returns `false` together with the cleared
manager (both entries removed), a subsequent `get_remaining_lockout_minutes`
returns `0` at every instant, and `get_remaining_lockout_minutes` is never
negative in any state whatsoever. -/
theorem c5_lockout_expiry_self_heal :
    (∀ (m : LoginLockoutManager) (x : List Char) (t now now2 : ℤ),
      m.lockout_expiry x = some t →
      t < now →
      is_locked_out m x now = (false, clear_lockout m x) ∧
      (clear_lockout m x).lockout_expiry x = none ∧
      (clear_lockout m x).failed_attempts x = none ∧
      get_remaining_lockout_minutes (clear_lockout m x) x now2 = 0) ∧
    (∀ (m : LoginLockoutManager) (x : List Char) (now : ℤ),
      0 ≤ get_remaining_lockout_minutes m x now) := by
  constructor
  · intro m x t now now2 hexp hlt
    refine ⟨?_, by simp [clear_lockout], by simp [clear_lockout], ?_⟩
    · unfold is_locked_out
      rw [hexp]
      simp [hlt]
    · unfold get_remaining_lockout_minutes
      simp [clear_lockout]
  · intro m x now
    unfold get_remaining_lockout_minutes
    cases m.lockout_expiry x with
    | none => simp
    | some expiry =>
      by_cases h : expiry = 0
      · simp [h]
      · simp [h]

/-- Witness for C5 at a concrete locked-out manager with expired lockout. -/
theorem c5_witness :
    ({ failed_attempts := fun _ => some 3,
       lockout_expiry := fun _ => some 10 } :
        LoginLockoutManager).lockout_expiry (pstr "u@e.c") = some 10 ∧
    (10 : ℤ) < 20 ∧
    is_locked_out
      { failed_attempts := fun _ => some 3, lockout_expiry := fun _ => some 10 }
      (pstr "u@e.c") 20 =
      (false, clear_lockout
        { failed_attempts := fun _ => some 3,
          lockout_expiry := fun _ => some 10 } (pstr "u@e.c")) ∧
    get_remaining_lockout_minutes
      (clear_lockout
        { failed_attempts := fun _ => some 3,
          lockout_expiry := fun _ => some 10 } (pstr "u@e.c"))
      (pstr "u@e.c") 20 = 0 :=
  ⟨rfl, by decide,
    ((c5_lockout_expiry_self_heal.1
      { failed_attempts := fun _ => some 3, lockout_expiry := fun _ => some 10 }
      (pstr "u@e.c") 10 20 20 rfl (by decide)).1),
    ((c5_lockout_expiry_self_heal.1
      { failed_attempts := fun _ => some 3, lockout_expiry := fun _ => some 10 }
      (pstr "u@e.c") 10 20 20 rfl (by decide)).2.2.2)⟩

/-- C9 counterexample: after the third `increment_failed_attempts` the
transition to locked-out happens, yet the failed-attempt counter is still
retained (`failed_attempts[x] = 3`) alongside the expiry entry — the tracker
does not hold "only the lockout expiry". -/
theorem c9_counterexample :
    ((increment_failed_attempts
      (increment_failed_attempts
        (increment_failed_attempts emptyManager (pstr "user@example.com") 0)
        (pstr "user@example.com") 0)
      (pstr "user@example.com") 0).failed_attempts (pstr "user@example.com") =
      some 3) ∧
    ((increment_failed_attempts
      (increment_failed_attempts
        (increment_failed_attempts emptyManager (pstr "user@example.com") 0)
        (pstr "user@example.com") 0)
      (pstr "user@example.com") 0).lockout_expiry (pstr "user@example.com") ≠
      none) := by
  constructor
  · decide
  · decide

/-- C9 amended: when an `increment_failed_attempts` call makes the count
reach `MAX_ATTEMPTS`, the identity transitions to locked-out with expiry
`now + 300`, and the failed-attempt counter is retained alongside the expiry
(it is not discarded): both dict entries are present afterwards. -/
theorem c9_counter_retained_on_lockout (m : LoginLockoutManager)
    (x : List Char) (now : ℤ)
    (h : MAX_ATTEMPTS ≤ (m.failed_attempts x).getD 0 + 1) :
    (increment_failed_attempts m x now).failed_attempts x =
      some ((m.failed_attempts x).getD 0 + 1) ∧
    (increment_failed_attempts m x now).lockout_expiry x =
      some (now + LOCKOUT_DURATION) :=
  ⟨increment_failed_self m x now, increment_expiry_self_of_max m x now h⟩

/-- Witness for the amended C9 at a concrete manager holding two failures. -/
theorem c9_witness :
    MAX_ATTEMPTS ≤
      (({ failed_attempts := fun _ => some 2, lockout_expiry := fun _ => none } :
        LoginLockoutManager).failed_attempts (pstr "u@e.c")).getD 0 + 1 ∧
    (increment_failed_attempts
      { failed_attempts := fun _ => some 2, lockout_expiry := fun _ => none }
      (pstr "u@e.c") 100).failed_attempts (pstr "u@e.c") = some 3 ∧
    (increment_failed_attempts
      { failed_attempts := fun _ => some 2, lockout_expiry := fun _ => none }
      (pstr "u@e.c") 100).lockout_expiry (pstr "u@e.c") =
      some (100 + LOCKOUT_DURATION) :=
  ⟨by decide,
    (c9_counter_retained_on_lockout
      { failed_attempts := fun _ => some 2, lockout_expiry := fun _ => none }
      (pstr "u@e.c") 100 (by decide)).1,
    (c9_counter_retained_on_lockout
      { failed_attempts := fun _ => some 2, lockout_expiry := fun _ => none }
      (pstr "u@e.c") 100 (by decide)).2⟩

/-- C10: an identity already locked out (expiry entry `t` not yet past,
counter entry `n` with `n + 1 ≥ MAX_ATTEMPTS`, as every reachable locked-out
state has) gets, on a further `increment_failed_attempts` at instant `now`
with `t - 300 < now`, its counter bumped to `n + 1` and its expiry
overwritten to `now + 300`, which lies strictly beyond the original expiry
`t`. -/
theorem c10_failure_while_locked_extends (m : LoginLockoutManager)
    (x : List Char) (t : ℤ) (n : Nat) (now : ℤ)
    (hexp : m.lockout_expiry x = some t)
    (hcnt : m.failed_attempts x = some n)
    (hmax : MAX_ATTEMPTS ≤ n + 1)
    (hunexpired : now ≤ t)
    (hadvanced : t - LOCKOUT_DURATION < now) :
    (increment_failed_attempts m x now).failed_attempts x = some (n + 1) ∧
    (increment_failed_attempts m x now).lockout_expiry x =
      some (now + LOCKOUT_DURATION) ∧
    t < now + LOCKOUT_DURATION := by
  have h1 := increment_failed_self m x now
  rw [hcnt] at h1
  have h2 := increment_expiry_self_of_max m x now (by rw [hcnt]; exact hmax)
  exact ⟨h1, h2, by omega⟩

/-- Witness for C10 at a concrete locked-out manager. -/
theorem c10_witness :
    ((increment_failed_attempts
      { failed_attempts := fun _ => some 3, lockout_expiry := fun _ => some 300 }
      (pstr "u@e.c") 100).failed_attempts (pstr "u@e.c") = some 4) ∧
    ((increment_failed_attempts
      { failed_attempts := fun _ => some 3, lockout_expiry := fun _ => some 300 }
      (pstr "u@e.c") 100).lockout_expiry (pstr "u@e.c") =
      some (100 + LOCKOUT_DURATION)) ∧
    (300 : ℤ) < 100 + LOCKOUT_DURATION :=
  ⟨(c10_failure_while_locked_extends
      { failed_attempts := fun _ => some 3, lockout_expiry := fun _ => some 300 }
      (pstr "u@e.c") 300 3 100 rfl rfl (by decide) (by decide) (by decide)).1,
    (c10_failure_while_locked_extends
      { failed_attempts := fun _ => some 3, lockout_expiry := fun _ => some 300 }
      (pstr "u@e.c") 300 3 100 rfl rfl (by decide) (by decide) (by decide)).2.1,
    (c10_failure_while_locked_extends
      { failed_attempts := fun _ => some 3, lockout_expiry := fun _ => some 300 }
      (pstr "u@e.c") 300 3 100 rfl rfl (by decide) (by decide) (by decide)).2.2⟩

/-! ## `src/utils/database.py` — Data Store

Rows of the `users` and `password_reset_tokens` tables; `fetchone` on a
`SELECT` is `List.find?`.  The two `UPDATE` methods sit in `try/except`
blocks around `mysql.connector` calls, so each gets an environment flag
telling whether the underlying statement succeeds; on failure they return
`False` and change nothing. -/

structure UserRecord where
  user_id : Nat
  email : List Char
  password_hash : List Char
  deriving DecidableEq

structure TokenRecord where
  token_id : Nat
  user_id : Nat
  token : List Char
  expires_at : ℤ
  is_used : Bool
  deriving DecidableEq

structure Database where
  users : List UserRecord
  tokens : List TokenRecord
  update_password_ok : Bool
  mark_token_used_ok : Bool
  deriving DecidableEq

/-- `SELECT * FROM users WHERE email=%s` + `fetchone`. -/
def Database.get_user_by_username (db : Database) (username : List Char) :
    Option UserRecord :=
  db.users.find? (fun u => decide (u.email = username))

/-- `get_password_reset_token`: normalizes the argument with
`token.strip().upper()` and runs
`SELECT * FROM password_reset_tokens WHERE UPPER(token)=%s` + `fetchone`. -/
def Database.get_password_reset_token (db : Database) (token : List Char) :
    Option TokenRecord :=
  db.tokens.find? (fun r => decide (pyUpper r.token = pyUpper (pyStrip token)))

/-- `update_user_password`: `UPDATE users SET password_hash=%s WHERE
user_id=%s`, returning `False` and leaving the store untouched when the
statement raises. -/
def Database.update_user_password (db : Database) (user_id : Nat)
    (new_password_hash : List Char) : Bool × Database :=
  if db.update_password_ok then
    (true, { db with users := db.users.map (fun u =>
      if u.user_id = user_id then { u with password_hash := new_password_hash }
      else u) })
  else
    (false, db)

/-- `mark_token_used`: `UPDATE password_reset_tokens SET is_used=TRUE WHERE
token_id=%s`, same failure convention. -/
def Database.mark_token_used (db : Database) (token_id : Nat) :
    Bool × Database :=
  if db.mark_token_used_ok then
    (true, { db with tokens := db.tokens.map (fun r =>
      if r.token_id = token_id then { r with is_used := true } else r) })
  else
    (false, db)

/-! ## `src/utils/reset_helpers.py` — Reset Code Generator and token logic -/

/-- `string.ascii_uppercase + string.digits`: the 36-symbol alphabet. -/
def alphabet : List Char := pstr "ABCDEFGHIJKLMNOPQRSTUVWXYZ0123456789"

/-- `generate_reset_code` from `src/utils/reset_helpers.py`:
`''.join(secrets.choice(alphabet) for _ in range(length))`.  Each draw of
`secrets.choice` is one value of the explicit random stream `choice`, an
index into the alphabet. -/
def generate_reset_code (choice : Nat → Fin alphabet.length) (length : Nat) :
    List Char :=
  (List.range length).map (fun i => alphabet.get (choice i))

/-- `validate_reset_token`: normalize with `strip().upper()`, look the token
up case-insensitively, and fail closed on missing, used or expired records.
The source's `isinstance(expires_at, str)` re-parse is a storage-format
coercion with no behavioural content here, where `expires_at` is already a
timestamp.  The function only reads the store (its one `Database` argument
is not returned modified — it performs no writes by construction). -/
def validate_reset_token (db : Database) (token : List Char) (now : ℤ) :
    Bool :=
  match db.get_password_reset_token (pyUpper (pyStrip token)) with
  | none => false
  | some token_data =>
    if token_data.is_used then false
    else if token_data.expires_at < now then false
    else true

/-- `mark_token_used` helper: delegates to the store. -/
def mark_token_used (db : Database) (token_id : Nat) : Bool × Database :=
  db.mark_token_used token_id

/-- `reset_password`: hash the new password (fresh salt made explicit) and
persist it, reporting the store's success flag. -/
def reset_password (db : Database) (H : List Char → List Char)
    (salt : List Char) (user_id : Nat) (new_password : List Char) :
    Bool × Database :=
  db.update_user_password user_id (hash_password H salt new_password)

/-! ## `src/screens/reset_password.py` — reset orchestration -/

inductive ResetOutcome where
  | missingFields
  | passwordTooShort
  | invalidToken
  /-- `validate_reset_token` returned `True` but the re-fetch found nothing:
  Python would raise `TypeError` on `token_data["user_id"]`. -/
  | lookupFailed
  | resetSuccess
  | resetFailed
  deriving DecidableEq

/-- `PasswordResetScreen.on_reset_password`: field checks, token validation,
token re-fetch, `reset_password`, and — only on its success —
`mark_token_used`. -/
def on_reset_password (db : Database) (H : List Char → List Char)
    (salt : List Char) (now : ℤ) (token_input new_password : List Char) :
    ResetOutcome × Database :=
  if pyStrip token_input = [] ∨ new_password = [] then
    (.missingFields, db)
  else if new_password.length < 8 then
    (.passwordTooShort, db)
  else if validate_reset_token db (pyStrip token_input) now = false then
    (.invalidToken, db)
  else
    match db.get_password_reset_token (pyStrip token_input) with
    | none => (.lookupFailed, db)
    | some token_data =>
      match reset_password db H salt token_data.user_id new_password with
      | (true, db1) => (.resetSuccess, (mark_token_used db1 token_data.token_id).2)
      | (false, db1) => (.resetFailed, db1)

/-! ## Claims C3, C4, C6 -/

/-- C3: `validate_reset_token` returns `false` when the uppercase-normalized
token is not found, when the stored record is already used, and when its
expiry lies strictly before the clock; it returns `true` on a fresh, unused,
unexpired record; and its verdict depends on the input string only through
its uppercase-normalized form, so any casing of a stored token is accepted.
It performs no writes: the embedded function returns only a `Bool` and
invokes only the read-only store method. -/
theorem c3_validate_token_verdicts (db : Database) (token : List Char)
    (now : ℤ) :
    (db.get_password_reset_token (pyUpper (pyStrip token)) = none →
      validate_reset_token db token now = false) ∧
    (∀ r, db.get_password_reset_token (pyUpper (pyStrip token)) = some r →
      r.is_used = true → validate_reset_token db token now = false) ∧
    (∀ r, db.get_password_reset_token (pyUpper (pyStrip token)) = some r →
      r.expires_at < now → validate_reset_token db token now = false) ∧
    (∀ r, db.get_password_reset_token (pyUpper (pyStrip token)) = some r →
      r.is_used = false → ¬ r.expires_at < now →
      validate_reset_token db token now = true) ∧
    (∀ s, pyUpper (pyStrip s) = pyUpper (pyStrip token) →
      validate_reset_token db s now = validate_reset_token db token now) := by
  refine ⟨?_, ?_, ?_, ?_, ?_⟩
  · intro h
    unfold validate_reset_token
    rw [h]
  · intro r hr hused
    unfold validate_reset_token
    rw [hr]
    simp [hused]
  · intro r hr hexp
    unfold validate_reset_token
    rw [hr]
    simp [hexp]
  · intro r hr hused hexp
    unfold validate_reset_token
    rw [hr]
    simp [hused, hexp]
  · intro s hs
    unfold validate_reset_token
    rw [hs]

/-- Witness for C3: a concrete store holding the fresh token `"ABC123"`,
queried with the differently-cased, whitespace-padded input `"abc123 "`. -/
theorem c3_witness :
    ({ users := [], tokens := [⟨1, 42, pstr "ABC123", 100, false⟩],
       update_password_ok := true, mark_token_used_ok := true } :
        Database).get_password_reset_token
      (pyUpper (pyStrip (pstr "abc123 "))) =
      some ⟨1, 42, pstr "ABC123", 100, false⟩ ∧
    validate_reset_token
      { users := [], tokens := [⟨1, 42, pstr "ABC123", 100, false⟩],
        update_password_ok := true, mark_token_used_ok := true }
      (pstr "abc123 ") 50 = true :=
  ⟨by decide,
    (c3_validate_token_verdicts
      { users := [], tokens := [⟨1, 42, pstr "ABC123", 100, false⟩],
        update_password_ok := true, mark_token_used_ok := true }
      (pstr "abc123 ") 50).2.2.2.1 ⟨1, 42, pstr "ABC123", 100, false⟩
      (by decide) (by decide) (by decide)⟩

/-- C4: in `on_reset_password`, the token is consumed only after the
password-hash write succeeded.  (i) If the password write fails, the whole
store is returned unchanged — the token is still unconsumed and the reset is
retryable.  (ii) If the token table changed at all, the password write must
have succeeded.  (iii) When every stage succeeds, the outcome is success and
every record with the fetched token's id is marked used. -/
theorem c4_consume_only_after_password_write (db : Database)
    (H : List Char → List Char) (salt : List Char) (now : ℤ)
    (token_input new_password : List Char) :
    (db.update_password_ok = false →
      (on_reset_password db H salt now token_input new_password).2 = db) ∧
    ((on_reset_password db H salt now token_input new_password).2.tokens ≠
        db.tokens →
      db.update_password_ok = true) ∧
    (∀ td, pyStrip token_input ≠ [] → new_password ≠ [] →
      ¬ new_password.length < 8 →
      validate_reset_token db (pyStrip token_input) now = true →
      db.get_password_reset_token (pyStrip token_input) = some td →
      db.update_password_ok = true → db.mark_token_used_ok = true →
      (on_reset_password db H salt now token_input new_password).1 =
        ResetOutcome.resetSuccess ∧
      (∀ r ∈ (on_reset_password db H salt now token_input new_password).2.tokens,
        r.token_id = td.token_id → r.is_used = true)) := by
  have hfail : db.update_password_ok = false →
      (on_reset_password db H salt now token_input new_password).2 = db := by
    intro h
    unfold on_reset_password
    split_ifs with h1 h2 h3
    · rfl
    · rfl
    · rfl
    · cases hg : db.get_password_reset_token (pyStrip token_input) with
      | none => simp [hg]
      | some td =>
        unfold reset_password Database.update_user_password
        simp [hg, h]
  refine ⟨hfail, ?_, ?_⟩
  · intro hne
    cases hb : db.update_password_ok with
    | true => rfl
    | false => exact absurd (by rw [hfail hb]) hne
  · intro td h1 h2 h3 hval hg hupd hmark
    unfold on_reset_password reset_password Database.update_user_password
      mark_token_used Database.mark_token_used
    rw [if_neg (by push_neg; exact ⟨h1, h2⟩), if_neg h3,
      if_neg (by rw [hval]; simp)]
    simp only [hg, hupd, hmark, if_true]
    refine ⟨trivial, ?_⟩
    intro r hr hid
    simp only [List.mem_map] at hr
    obtain ⟨r0, _, hr0⟩ := hr
    by_cases hcase : r0.token_id = td.token_id
    · rw [← hr0]
      simp [hcase]
    · have hid0 : r0.token_id = td.token_id := by
        rw [← hr0] at hid
        simpa [hcase] using hid
      exact absurd hid0 hcase

/-- Witness for C4: a store whose `UPDATE users` statement fails is returned
unchanged by the whole reset handler. -/
theorem c4_witness :
    ({ users := [⟨42, pstr "u@e.c", pstr "old"⟩],
       tokens := [⟨1, 42, pstr "ABC123", 100, false⟩],
       update_password_ok := false, mark_token_used_ok := true } :
        Database).update_password_ok = false ∧
    (on_reset_password
      { users := [⟨42, pstr "u@e.c", pstr "old"⟩],
        tokens := [⟨1, 42, pstr "ABC123", 100, false⟩],
        update_password_ok := false, mark_token_used_ok := true }
      (fun _ => pstr "ab") (pstr "00") 50 (pstr "abc123") (pstr "longenough")).2 =
      { users := [⟨42, pstr "u@e.c", pstr "old"⟩],
        tokens := [⟨1, 42, pstr "ABC123", 100, false⟩],
        update_password_ok := false, mark_token_used_ok := true } :=
  ⟨rfl,
    (c4_consume_only_after_password_write
      { users := [⟨42, pstr "u@e.c", pstr "old"⟩],
        tokens := [⟨1, 42, pstr "ABC123", 100, false⟩],
        update_password_ok := false, mark_token_used_ok := true }
      (fun _ => pstr "ab") (pstr "00") 50 (pstr "abc123")
      (pstr "longenough")).1 rfl⟩

/-- C6: for every random stream and every length `n`,
`generate_reset_code` yields exactly `n` characters, each a member of the
36-symbol alphabet `A-Z0-9` — hence in particular upper-case-or-digit by
construction; `generate_reset_code` at length 6 is the user-facing instance
of this statement. -/
theorem c6_generate_code_shape (choice : Nat → Fin alphabet.length)
    (n : Nat) :
    (generate_reset_code choice n).length = n ∧
    (∀ c ∈ generate_reset_code choice n, c ∈ alphabet) ∧
    (∀ c ∈ generate_reset_code choice n, (c.isUpper || c.isDigit) = true) := by
  have hmem : ∀ c ∈ generate_reset_code choice n, c ∈ alphabet := by
    intro c hc
    unfold generate_reset_code at hc
    simp only [List.mem_map] at hc
    obtain ⟨i, _, hi⟩ := hc
    rw [← hi]
    exact List.get_mem alphabet (choice i).1 (choice i).2
  refine ⟨?_, hmem, ?_⟩
  · unfold generate_reset_code
    simp
  · intro c hc
    have halpha : ∀ c ∈ alphabet, (c.isUpper || c.isDigit) = true := by decide
    exact halpha c (hmem c hc)

/-! ## `src/utils/login_helpers.py` (input validation, authentication) and
`src/screens/login.py` (login flow) -/

/-- `validate_login_input`: shape checks, in source order — both fields
non-empty (Python truthiness of strings), identity contains `@` and `.`,
password at least 8 characters.  Returns `(ok, error message)`. -/
def validate_login_input (username password : List Char) :
    Bool × List Char :=
  if username = [] ∨ password = [] then
    (false, pstr "Please enter both username and password.")
  else if '@' ∉ username ∨ '.' ∉ username then
    (false, pstr "Please enter a valid email address.")
  else if password.length < 8 then
    (false, pstr "Password must be at least 8 characters.")
  else
    (true, pstr "")

/-- `authenticate_user`: look the user up in the store and verify the
password against the stored salted hash. -/
def authenticate_user (H : List Char → List Char) (db : Database)
    (username password : List Char) : Bool × Option UserRecord :=
  match db.get_user_by_username username with
  | none => (false, none)
  | some user =>
    if verify_password H user.password_hash password then (true, some user)
    else (false, none)

/-- One Data Store access made during a login attempt; `authenticate_user`
performs the only one (`SELECT` by email). -/
inductive DSCall where
  | getUserByUsername (username : List Char)
  deriving DecidableEq

inductive LoginOutcome where
  /-- A click while `_is_logging_in` — ignored. -/
  | ignored
  | validationError (msg : List Char)
  | lockedOutMsg (remaining : ℤ)
  | loginSuccess (username : List Char)
  | loginFailed (attemptsLeft : ℤ)

/-- `LoginScreen._on_login_clicked` followed — when a login actually starts —
by `_complete_login_attempt` (the 1-second timer always fires).  Distinct
clock reads are distinct parameters `tA..tE` in call order.  Returns the
outcome the user sees, the updated lockout manager, and the list of Data
Store calls made. -/
def login_attempt (H : List Char → List Char) (db : Database)
    (m : LoginLockoutManager) (is_logging_in : Bool)
    (raw_username password : List Char) (tA tB tC tD tE : ℤ) :
    LoginOutcome × LoginLockoutManager × List DSCall :=
  if is_logging_in then (.ignored, m, [])
  else
    let username := pyLower (pyStrip raw_username)
    match validate_login_input username password with
    | (false, msg) => (.validationError msg, m, [])
    | (true, _) =>
      match is_locked_out m username tA with
      | (true, m1) =>
        (.lockedOutMsg (get_remaining_lockout_minutes m1 username tB), m1, [])
      | (false, m1) =>
        match authenticate_user H db username password with
        | (true, _) =>
          (.loginSuccess username, clear_lockout m1 username,
            [.getUserByUsername username])
        | (false, _) =>
          let m2 := increment_failed_attempts m1 username tC
          let attemptsLeft : ℤ :=
            3 - ((m2.failed_attempts username).getD 0 : ℤ)
          match is_locked_out m2 username tD with
          | (true, m3) =>
            (.lockedOutMsg (get_remaining_lockout_minutes m3 username tE), m3,
              [.getUserByUsername username])
          | (false, m3) =>
            (.loginFailed attemptsLeft, m3, [.getUserByUsername username])

/-- C7: an identity/password pair that fails shape validation stops the
login attempt with the validation error before anything else happens: the
Data Store is never called and the lockout manager is returned untouched.
The second conjunct characterises exactly when shape validation fails:
empty identity or password, identity lacking `@` or `.`, or password
shorter than 8 characters. -/
theorem c7_invalid_input_before_store (H : List Char → List Char)
    (db : Database) (m : LoginLockoutManager)
    (raw_username password : List Char) (tA tB tC tD tE : ℤ) :
    (∀ msg,
      validate_login_input (pyLower (pyStrip raw_username)) password =
        (false, msg) →
      login_attempt H db m false raw_username password tA tB tC tD tE =
        (.validationError msg, m, [])) ∧
    (∀ u p : List Char, (validate_login_input u p).1 = false ↔
      u = [] ∨ p = [] ∨ '@' ∉ u ∨ '.' ∉ u ∨ p.length < 8) := by
  constructor
  · intro msg hv
    unfold login_attempt
    simp only [if_false, Bool.false_eq_true, hv]
  · intro u p
    unfold validate_login_input
    split_ifs with h1 h2 h3 <;> simp
    · tauto
    · tauto
    · tauto
    · have h3' : 8 ≤ p.length := by omega
      tauto

/-- Witness for C7: a too-short password is rejected with no store call and
no lockout-state change. -/
theorem c7_witness :
    validate_login_input (pyLower (pyStrip (pstr "user@example.com")))
      (pstr "short") =
      (false, pstr "Password must be at least 8 characters.") ∧
    login_attempt (fun _ => pstr "ab")
      { users := [], tokens := [],
        update_password_ok := true, mark_token_used_ok := true }
      emptyManager false (pstr "user@example.com") (pstr "short") 0 0 0 0 0 =
      (.validationError (pstr "Password must be at least 8 characters."),
        emptyManager, []) :=
  ⟨by decide,
    (c7_invalid_input_before_store (fun _ => pstr "ab")
      { users := [], tokens := [],
        update_password_ok := true, mark_token_used_ok := true }
      emptyManager (pstr "user@example.com") (pstr "short") 0 0 0 0 0).1
      (pstr "Password must be at least 8 characters.") (by decide)⟩

end LoginSystem
